import Mathlib

/-!
Formal model of the query-cache layer of `src/shared/lib/queryClient.ts`:
the persisted-snapshot writer `persistQueryCache`, the startup reader
`hydrateQueryCache`, and the retry/backoff policy of `createQueryClient`.

JavaScript values that can appear as query-key segments, cached data, or
parsed JSON are modelled by the inductive `JVal`.  Machine timestamps
(`Date.now()`, `dataUpdatedAt`) are modelled as `Nat` epoch milliseconds;
a stored snapshot's `timestamp`/`version` fields are `Int` since they come
from parsed JSON.  The `localStorage` slot under the fixed key
`zenchat_query_cache` is modelled in parsed form as an
`Option CacheSnapshot` (reading back `JSON.parse (JSON.stringify x)`
yields the structure that was written).  The fallible library calls
`JSON.stringify` and `localStorage.setItem` are modelled by explicit
`Option JsError` parameters standing for the error they throw, if any.
-/

namespace ZenChat

mutual
/-- JavaScript values: `undefined`, `null`, booleans, (integer) numbers,
strings, arrays and plain objects.  Arrays and objects are given by the
mutual types `JArr`/`JObj` so that decidable equality can be derived.
Floating-point numbers do not occur in the cache layer's decisions and are
not modelled. -/
inductive JVal where
  | undef
  | nullv
  | bool (b : Bool)
  | num (n : Int)
  | str (s : String)
  | arr (elems : JArr)
  | obj (fields : JObj)
deriving DecidableEq
inductive JArr where
  | nil
  | cons (head : JVal) (tail : JArr)
deriving DecidableEq
inductive JObj where
  | nil
  | cons (key : String) (val : JVal) (tail : JObj)
deriving DecidableEq
end

/-- JavaScript falsiness of a `JVal`, as tested by `!query.state.data` in
`persistQueryCache`: `undefined`, `null`, `false`, `0` and `""` are falsy;
every array or object is truthy.  (`NaN`, the only other falsy value, is a
float and out of model.) -/
def isFalsy : JVal → Bool
  | .undef => true
  | .nullv => true
  | .bool b => !b
  | .num n => n == 0
  | .str s => s == ""
  | .arr _ => false
  | .obj _ => false

/-- TanStack query status, `query.state.status`. -/
inductive QueryStatus where
  | pending
  | success
  | error
deriving DecidableEq

/-- The slice of `query.state` read by `persistQueryCache`. -/
structure QueryState where
  status : QueryStatus
  data : JVal
  dataUpdatedAt : Nat
deriving DecidableEq

/-- One entry of the in-memory query cache (`cache.getAll()` element). -/
structure Query where
  queryKey : List JVal
  state : QueryState
deriving DecidableEq

/-- `export const CACHE_SCHEMA_VERSION = 2` (an `Int`, since the stored
snapshot's `version` field comes from parsed JSON and is compared to it). -/
def CACHE_SCHEMA_VERSION : Int := 2

/-- `const PERSISTER_KEY = "zenchat_query_cache"` — the fixed durable slot. -/
def PERSISTER_KEY : String := "zenchat_query_cache"

/-- `const EXCLUDED_QUERY_KEYS = ["zip-tasks", "posts", "accounts", "post-images"]`. -/
def EXCLUDED_QUERY_KEYS : List String := ["zip-tasks", "posts", "accounts", "post-images"]

/-- The filter of `persistQueryCache`: keep a query iff its status is
`success`, its data is truthy, and its leading key segment is not a string
listed in `EXCLUDED_QUERY_KEYS`.  (An absent or non-string leading segment
is not excluded, matching the `typeof firstKey === "string"` guard.) -/
def persistFilter (q : Query) : Bool :=
  if q.state.status ≠ QueryStatus.success ∨ isFalsy q.state.data = true then false
  else
    match q.queryKey.head? with
    | some (JVal.str s) => if EXCLUDED_QUERY_KEYS.contains s then false else true
    | _ => true

/-- One element of the snapshot's `queries` array:
`{ queryKey, data, dataUpdatedAt }`. -/
structure PersistedQuery where
  queryKey : List JVal
  data : JVal
  dataUpdatedAt : Nat
deriving DecidableEq

/-- The `.map` step of `persistQueryCache`. -/
def toPersisted (q : Query) : PersistedQuery :=
  ⟨q.queryKey, q.state.data, q.state.dataUpdatedAt⟩

/-- `persistableQueries` of `persistQueryCache`: filter then map. -/
def persistableQueries (store : List Query) : List PersistedQuery :=
  (store.filter persistFilter).map toPersisted

/-- The parsed form of the durable payload:
`{ version, timestamp, queries }`. -/
structure CacheSnapshot where
  version : Int
  timestamp : Int
  queries : List PersistedQuery
deriving DecidableEq

/-- The snapshot value `persistQueryCache` serializes at time `now`. -/
def mkSnapshot (store : List Query) (now : Nat) : CacheSnapshot :=
  ⟨CACHE_SCHEMA_VERSION, (now : Int), persistableQueries store⟩

/-- The character standing after the backslash when `JSON.stringify`
escapes `c`, when it does (the common escapes; `\u00XX` forms for other
control characters are omitted — they only shift the byte count of exotic
inputs). -/
def escCode (c : Char) : Option Char :=
  if c = '"' then some '"'
  else if c = '\\' then some '\\'
  else if c = '\n' then some 'n'
  else if c = '\r' then some 'r'
  else if c = '\t' then some 't'
  else none

/-- JSON string escaping of one character, per `JSON.stringify`. -/
def escChar (c : Char) : List Char :=
  match escCode c with
  | some e => '\\' :: [e]
  | none => [c]

/-- JSON string escaping of a character list. -/
def escList : List Char → List Char
  | [] => []
  | c :: cs => escChar c ++ escList cs

/-- A JSON string literal: quote, escaped body, quote. -/
def strLit (s : String) : List Char :=
  '"' :: escList s.data ++ ['"']

/-- Decimal digits of a natural number, as characters. -/
def natChars (n : Nat) : List Char := (Nat.repr n).data

/-- Decimal rendering of an integer, as characters. -/
def intChars (i : Int) : List Char :=
  if i < 0 then '-' :: natChars i.natAbs else natChars i.natAbs

/-- Comma-separated concatenation, as between JSON array elements. -/
def sepCommaList : List (List Char) → List Char
  | [] => []
  | [x] => x
  | x :: xs => x ++ ',' :: sepCommaList xs

mutual
/-- `JSON.stringify` of a `JVal`, modelled as a character list (the source
checks `cacheData.length`, the character count).  `undefined` is rendered
as `null` (its behaviour in array positions); object fields keep their
insertion order. -/
def serializeJVal : JVal → List Char
  | .undef => "null".data
  | .nullv => "null".data
  | .bool b => if b then "true".data else "false".data
  | .num i => intChars i
  | .str s => '"' :: escList s.data ++ ['"']
  | .arr elems => '[' :: serializeJArr elems ++ [']']
  | .obj fields => '\x7b' :: serializeJObj fields ++ ['\x7d']
def serializeJArr : JArr → List Char
  | .nil => []
  | .cons v .nil => serializeJVal v
  | .cons v tail => serializeJVal v ++ ',' :: serializeJArr tail
def serializeJObj : JObj → List Char
  | .nil => []
  | .cons k v .nil => '"' :: escList k.data ++ '"' :: ':' :: serializeJVal v
  | .cons k v tail =>
    ('"' :: escList k.data ++ '"' :: ':' :: serializeJVal v) ++ ',' :: serializeJObj tail
end

/-- `JSON.stringify` of a query key (a JSON array of segments). -/
def serializeKey (key : List JVal) : List Char :=
  '[' :: sepCommaList (key.map serializeJVal) ++ [']']

/-- `JSON.stringify` of one snapshot entry:
`{"queryKey":…,"data":…,"dataUpdatedAt":…}`. -/
def serializeEntry (pq : PersistedQuery) : List Char :=
  '\x7b' :: strLit "queryKey" ++ ':' :: serializeKey pq.queryKey
    ++ ',' :: strLit "data" ++ ':' :: serializeJVal pq.data
    ++ ',' :: strLit "dataUpdatedAt" ++ ':' :: natChars pq.dataUpdatedAt
    ++ ['\x7d']

/-- `JSON.stringify` of the whole snapshot:
`{"version":…,"timestamp":…,"queries":[…]}`. -/
def serializeSnapshot (snap : CacheSnapshot) : List Char :=
  '\x7b' :: strLit "version" ++ ':' :: intChars snap.version
    ++ ',' :: strLit "timestamp" ++ ':' :: intChars snap.timestamp
    ++ ',' :: strLit "queries" ++ ':' :: '[' ::
      sepCommaList (snap.queries.map serializeEntry) ++ [']', '\x7d']

/-- A thrown JavaScript error, as inspected by the `catch` clause of
`persistQueryCache`: whether it is a `DOMException`, and its `name`. -/
structure JsError where
  isDOMException : Bool
  name : String
deriving DecidableEq

/-- The `error instanceof DOMException && error.name === "QuotaExceededError"`
test of the `catch` clause. -/
def JsError.isQuotaExceeded (e : JsError) : Bool :=
  e.isDOMException && e.name == "QuotaExceededError"

/-- The `QuotaExceededError` thrown by `localStorage.setItem` on quota
exhaustion. -/
def quotaError : JsError := ⟨true, "QuotaExceededError"⟩

/-- Observable outcome of one `persistQueryCache` call: the durable slot
afterwards, and whether a `console.warn` was emitted. -/
structure PersistResult where
  slot : Option CacheSnapshot
  warned : Bool
deriving DecidableEq

/-- The `try` body of `persistQueryCache` at time `now` with the durable
slot holding `slot`.  `stringifyError` (resp. `setItemError`) is the error
thrown by `JSON.stringify` (resp. `localStorage.setItem`) if that call
fails; `Except.error` is the body throwing. -/
def persistBody (store : List Query) (now : Nat) (slot : Option CacheSnapshot)
    (stringifyError setItemError : Option JsError) :
    Except JsError PersistResult :=
  if persistableQueries store = [] then .ok ⟨slot, false⟩
  else
    match stringifyError with
    | some e => .error e
    | none =>
      if 2 * 1024 * 1024 < (serializeSnapshot (mkSnapshot store now)).length then
        .ok ⟨slot, true⟩
      else
        match setItemError with
        | some e => .error e
        | none => .ok ⟨some (mkSnapshot store now), false⟩

/-- The `catch` clause of `persistQueryCache`: a `QuotaExceededError`
removes the slot silently (the inner `removeItem` is modelled as
succeeding); any other error is logged with `console.warn` and leaves the
slot unchanged. -/
def handleStorageError (slot : Option CacheSnapshot) (e : JsError) : PersistResult :=
  if e.isQuotaExceeded then ⟨none, false⟩ else ⟨slot, true⟩

/-- `persistQueryCache`: the `try` body with every thrown error routed
through the `catch` clause.  The result type is `Except` so that "an
error propagates to the caller" is expressible as an `Except.error`
result. -/
def persistQueryCache (store : List Query) (now : Nat) (slot : Option CacheSnapshot)
    (stringifyError setItemError : Option JsError) :
    Except JsError PersistResult :=
  match persistBody store now slot stringifyError setItemError with
  | .ok r => .ok r
  | .error e => .ok (handleStorageError slot e)

/-- Modelled from the spec: `CacheStore.setData` (§4.1), the
`queryClient.setQueryData(queryKey, data, { updatedAt })` call of
`hydrateQueryCache` — TanStack library code not under `src/`.  A direct
write "treated as equivalent to a successful fetch but may carry a
caller-supplied `updatedAt`": the entry for the key (at most one exists,
§3) becomes a Success entry with the given data and timestamp; a missing
key creates a new entry. -/
def setQueryData (store : List Query) (key : List JVal) (data : JVal)
    (updatedAt : Nat) : List Query :=
  match store with
  | [] => [⟨key, ⟨QueryStatus.success, data, updatedAt⟩⟩]
  | q :: rest =>
    if q.queryKey = key then ⟨key, ⟨QueryStatus.success, data, updatedAt⟩⟩ :: rest
    else q :: setQueryData rest key data updatedAt

/-- The restore loop of `hydrateQueryCache`: one `setQueryData` per
persisted entry, in order. -/
def restoreQueries (store : List Query) (l : List PersistedQuery) : List Query :=
  l.foldl (fun st pq => setQueryData st pq.queryKey pq.data pq.dataUpdatedAt) store

/-- `const maxAge = 24 * 60 * 60 * 1000` of `hydrateQueryCache`. -/
def MAX_CACHE_AGE : Int := 24 * 60 * 60 * 1000

/-- `hydrateQueryCache` at time `now`, on a store and a durable slot
(in parsed form; a missing or unparsable payload is the `none` case).
Returns the store and the slot afterwards: an absent slot is a no-op, a
version mismatch or an expired timestamp deletes the slot and restores
nothing, and otherwise every entry is written back with its original
`dataUpdatedAt`. -/
def hydrateQueryCache (store : List Query) (now : Nat)
    (slot : Option CacheSnapshot) : List Query × Option CacheSnapshot :=
  match slot with
  | none => (store, none)
  | some snap =>
    if snap.version ≠ CACHE_SCHEMA_VERSION then (store, none)
    else if MAX_CACHE_AGE < (now : Int) - snap.timestamp then (store, none)
    else (restoreQueries store snap.queries, some snap)

/-- Cache lookup by key (the unique entry for a key, §3). -/
def lookupQuery (store : List Query) (key : List JVal) : Option Query :=
  store.find? (fun q => q.queryKey = key)

/-- A fetch failure as seen by the retry predicate: `status` is the
numeric `status` property when the error object carries one. -/
structure FetchError where
  status : Option Int
deriving DecidableEq

/-- The `retry` callback of `createQueryClient`'s query defaults:
refuse after 3 failures; refuse any 4xx status; otherwise retry. -/
def queryRetry (failureCount : Nat) (e : FetchError) : Bool :=
  if 3 ≤ failureCount then false
  else
    match e.status with
    | some status => if 400 ≤ status ∧ status < 500 then false else true
    | none => true

/-- The `retryDelay` callback: `Math.min(1000 * 2 ** attemptIndex, 30000)`. -/
def retryDelay (attemptIndex : Nat) : Nat :=
  min (1000 * 2 ^ attemptIndex) 30000

/-- The mutation defaults' `retry: 1` — a plain number, not a callback. -/
def mutationRetry : Nat := 1

/-- Modelled from the spec: TanStack's interpretation of a numeric `retry`
option (library code not under `src/`) — "retry at most once" for
`retry: 1`: a failure is retried while the failure count is below the
configured number, independent of the error. -/
def numericShouldRetry (configured failureCount : Nat) (_e : FetchError) : Bool :=
  failureCount < configured

/-- Modelled from the spec: the mutation retry rule as §4.3 words it,
"retry at most once, using the same classification rule" as query
fetches — stated for comparison against the source's `retry: 1`. -/
def mutationRetrySpec (failureCount : Nat) (e : FetchError) : Bool :=
  if 1 ≤ failureCount then false
  else
    match e.status with
    | some status => if 400 ≤ status ∧ status < 500 then false else true
    | none => true

/-- C2: a stored snapshot whose `version` field differs from
`CACHE_SCHEMA_VERSION` is discarded entirely by `hydrateQueryCache`: the
durable slot is deleted, zero entries are restored (the store is returned
unchanged), and the function returns. -/
theorem hydrate_version_mismatch_discards (store : List Query) (now : Nat)
    (snap : CacheSnapshot) (h : snap.version ≠ CACHE_SCHEMA_VERSION) :
    hydrateQueryCache store now (some snap) = (store, none) := by
  simp [hydrateQueryCache, h]

/-- Witness for C2 at a concrete version-1 snapshot. -/
theorem hydrate_version_mismatch_discards_witness :
    (CacheSnapshot.mk 1 0 []).version ≠ CACHE_SCHEMA_VERSION ∧
    hydrateQueryCache [] 0 (some (CacheSnapshot.mk 1 0 [])) = ([], none) :=
  ⟨by decide, hydrate_version_mismatch_discards [] 0 (CacheSnapshot.mk 1 0 []) (by decide)⟩

/-- C3: a stored snapshot whose `timestamp` is more than 24 hours before the
hydration time is discarded entirely by `hydrateQueryCache`: the durable
slot is deleted, zero entries are restored, and the function returns
(whatever the snapshot's version is, both checks discard identically). -/
theorem hydrate_expired_discards (store : List Query) (now : Nat)
    (snap : CacheSnapshot) (h : MAX_CACHE_AGE < (now : Int) - snap.timestamp) :
    hydrateQueryCache store now (some snap) = (store, none) := by
  by_cases hv : snap.version = CACHE_SCHEMA_VERSION
  · simp [hydrateQueryCache, hv, h]
  · simp [hydrateQueryCache, hv]

/-- Witness for C3 at a concrete expired snapshot (timestamp 0, hydration
at 100000000 ms, i.e. more than 24 h later). -/
theorem hydrate_expired_discards_witness :
    MAX_CACHE_AGE < (100000000 : Int) - (CacheSnapshot.mk 2 0 []).timestamp ∧
    hydrateQueryCache [] 100000000 (some (CacheSnapshot.mk 2 0 [])) = ([], none) :=
  ⟨by decide, hydrate_expired_discards [] 100000000 (CacheSnapshot.mk 2 0 []) (by decide)⟩

/-- C4: the query retry predicate refuses any retry once 3 failures have
occurred; it refuses immediately, at every failure count, when the error
carries a status in 400–499; and an error carrying no status is retried
at every failure count below 3. -/
theorem query_retry_policy :
    (∀ (e : FetchError) (n : Nat), 3 ≤ n → queryRetry n e = false) ∧
    (∀ (n : Nat) (s : Int), 400 ≤ s → s < 500 →
      queryRetry n ⟨some s⟩ = false) ∧
    (∀ n : Nat, n < 3 → queryRetry n ⟨none⟩ = true) := by
  refine ⟨?_, ?_, ?_⟩
  · intro e n h
    simp [queryRetry, h]
  · intro n s h1 h2
    by_cases h3 : 3 ≤ n
    · simp [queryRetry, h3]
    · simp [queryRetry, h3, h1, h2]
  · intro n h
    simp [queryRetry, Nat.not_le.mpr h]

/-- Witness for C4: no retry at the third failure, no retry for a 404 at
the first failure, retry for a status-less error below three failures. -/
theorem query_retry_policy_witness :
    queryRetry 3 ⟨none⟩ = false ∧
    queryRetry 0 ⟨some 404⟩ = false ∧
    queryRetry 2 ⟨none⟩ = true :=
  ⟨query_retry_policy.1 ⟨none⟩ 3 (by decide),
   query_retry_policy.2.1 0 404 (by decide) (by decide),
   query_retry_policy.2.2 2 (by decide)⟩

/-- C5: the retry delay is exactly `min (1000 * 2 ^ n) 30000` for every
attempt index; in particular the first three delays are 1000 ms, 2000 ms
and 4000 ms, and no delay exceeds 30000 ms. -/
theorem retry_delay_exponential_capped :
    (∀ n : Nat, retryDelay n = min (1000 * 2 ^ n) 30000) ∧
    retryDelay 0 = 1000 ∧ retryDelay 1 = 2000 ∧ retryDelay 2 = 4000 ∧
    (∀ n : Nat, retryDelay n ≤ 30000) :=
  ⟨fun _ => rfl, rfl, rfl, rfl, fun _ => min_le_right _ _⟩

/-- C6 counterexample: a mutation failing with status 404 at failure
count 0 is retried under the source's numeric `retry: 1`, whereas the
claimed classification rule would refuse it: the claim that mutations use
the same 4xx classification as queries is false on the code. -/
theorem mutation_retry_classification_counterexample :
    numericShouldRetry mutationRetry 0 ⟨some 404⟩ = true ∧
    mutationRetrySpec 0 ⟨some 404⟩ = false := by
  decide

/-- C6 amended: mutation-style writes are retried at most once, but the
numeric `retry: 1` applies no error classification — the decision ignores
the error entirely, so even a failure with a 4xx status gets its one
retry. -/
theorem mutation_retry_at_most_once :
    (∀ (n : Nat) (e : FetchError), 1 ≤ n →
      numericShouldRetry mutationRetry n e = false) ∧
    (∀ e : FetchError, numericShouldRetry mutationRetry 0 e = true) := by
  constructor
  · intro n e h
    simp [numericShouldRetry, mutationRetry]
    omega
  · intro e
    rfl

/-- Witness for the amended C6: one retry happens (failure count 0, even
for a 4xx error), a second never does. -/
theorem mutation_retry_at_most_once_witness :
    numericShouldRetry mutationRetry 1 ⟨none⟩ = false ∧
    numericShouldRetry mutationRetry 0 ⟨some 500⟩ = true :=
  ⟨mutation_retry_at_most_once.1 1 ⟨none⟩ (by decide),
   mutation_retry_at_most_once.2 ⟨some 500⟩⟩

/-- A query whose leading key segment is an excluded string fails the
persistence filter. -/
theorem persistFilter_excluded (q : Query) (s : String)
    (hh : q.queryKey.head? = some (JVal.str s)) (hs : s ∈ EXCLUDED_QUERY_KEYS) :
    persistFilter q = false := by
  have hc : EXCLUDED_QUERY_KEYS.contains s = true := by
    simp [EXCLUDED_QUERY_KEYS] at hs ⊢
    rcases hs with rfl | rfl | rfl | rfl <;> simp
  unfold persistFilter
  rw [hh]
  simp [hc, hs]

/-- A query that passes the persistence filter has truthy data. -/
theorem persistFilter_not_falsy (q : Query) (hf : persistFilter q = true) :
    isFalsy q.state.data = false := by
  by_contra h
  have h' : isFalsy q.state.data = true := by
    cases hfd : isFalsy q.state.data
    · exact absurd hfd h
    · rfl
  rw [persistFilter, if_pos (Or.inr h')] at hf
  cases hf

/-- Every snapshot `persistQueryCache` ever writes is `mkSnapshot`: the
slot afterwards is the old slot, cleared, or the freshly built snapshot. -/
theorem persist_slot_cases (store : List Query) (now : Nat)
    (slot : Option CacheSnapshot) (sE wE : Option JsError) (r : PersistResult)
    (h : persistQueryCache store now slot sE wE = .ok r) :
    r.slot = slot ∨ r.slot = none ∨ r.slot = some (mkSnapshot store now) := by
  unfold persistQueryCache persistBody at h
  by_cases h1 : persistableQueries store = []
  · simp [h1] at h
    simp [← h]
  · simp [h1] at h
    match sE with
    | some e =>
      simp [handleStorageError] at h
      by_cases hq : e.isQuotaExceeded = true
      · simp [hq] at h
        simp [← h]
      · simp [hq] at h
        simp [← h]
    | none =>
      simp at h
      by_cases h2 : 2 * 1024 * 1024 < (serializeSnapshot (mkSnapshot store now)).length
      · simp [h2] at h
        simp [← h]
      · simp [h2] at h
        match wE with
        | some e =>
          simp [handleStorageError] at h
          by_cases hq : e.isQuotaExceeded = true
          · simp [hq] at h
            simp [← h]
          · simp [hq] at h
            simp [← h]
        | none =>
          simp at h
          simp [← h]

/-- C7: an entry whose leading key segment is a string in
`EXCLUDED_QUERY_KEYS` is never present in a snapshot produced by
`persistQueryCache`: every entry of the built snapshot has a non-excluded
leading segment, and the only snapshot the function ever writes is the
built one (otherwise the slot is left unchanged or cleared). -/
theorem excluded_keys_never_persisted :
    (∀ (store : List Query) (now : Nat) (pq : PersistedQuery),
      pq ∈ (mkSnapshot store now).queries →
      ∀ s : String, pq.queryKey.head? = some (JVal.str s) →
        s ∉ EXCLUDED_QUERY_KEYS) ∧
    (∀ (store : List Query) (now : Nat) (slot : Option CacheSnapshot)
      (sE wE : Option JsError) (r : PersistResult),
      persistQueryCache store now slot sE wE = .ok r →
      r.slot = slot ∨ r.slot = none ∨ r.slot = some (mkSnapshot store now)) := by
  constructor
  · intro store now pq hmem s hh hs
    have hmem' : pq ∈ persistableQueries store := hmem
    rw [persistableQueries, List.mem_map] at hmem'
    obtain ⟨q, hq, hpq⟩ := hmem'
    rw [List.mem_filter] at hq
    have hh' : q.queryKey.head? = some (JVal.str s) := by
      rw [← hpq] at hh
      exact hh
    rw [persistFilter_excluded q s hh' hs] at hq
    cases hq.2
  · exact persist_slot_cases

/-- Witness for C7 at a concrete store: the single entry (leading segment
`"tasks"`) is in the built snapshot and `"tasks"` is not excluded; and a
concrete successful persist call writes exactly the built snapshot. -/
theorem excluded_keys_never_persisted_witness :
    (PersistedQuery.mk [JVal.str "tasks"] (JVal.num 7) 5
      ∈ (mkSnapshot [⟨[JVal.str "tasks"], ⟨QueryStatus.success, JVal.num 7, 5⟩⟩] 0).queries) ∧
    "tasks" ∉ EXCLUDED_QUERY_KEYS ∧
    (PersistResult.mk (some (mkSnapshot [⟨[JVal.str "tasks"], ⟨QueryStatus.success, JVal.num 7, 5⟩⟩] 0)) false).slot = some (mkSnapshot [⟨[JVal.str "tasks"], ⟨QueryStatus.success, JVal.num 7, 5⟩⟩] 0) := by
  refine ⟨by decide, ?_, ?_⟩
  · exact excluded_keys_never_persisted.1
      [⟨[JVal.str "tasks"], ⟨QueryStatus.success, JVal.num 7, 5⟩⟩] 0
      (PersistedQuery.mk [JVal.str "tasks"] (JVal.num 7) 5) (by decide)
      "tasks" (by decide)
  · rcases excluded_keys_never_persisted.2
      [⟨[JVal.str "tasks"], ⟨QueryStatus.success, JVal.num 7, 5⟩⟩] 0 none none none
      (PersistResult.mk (some (mkSnapshot [⟨[JVal.str "tasks"], ⟨QueryStatus.success, JVal.num 7, 5⟩⟩] 0)) false)
      (by rfl) with h | h | h
    · cases h
    · cases h
    · exact h

/-- A member of `setQueryData store key data updatedAt` is either an old
entry or the freshly written Success entry. -/
theorem mem_setQueryData (store : List Query) (key : List JVal) (data : JVal)
    (updatedAt : Nat) (q : Query)
    (h : q ∈ setQueryData store key data updatedAt) :
    q ∈ store ∨ q = ⟨key, ⟨QueryStatus.success, data, updatedAt⟩⟩ := by
  induction store with
  | nil =>
    simp [setQueryData] at h
    exact Or.inr h
  | cons hd tl ih =>
    unfold setQueryData at h
    by_cases hk : hd.queryKey = key
    · rw [if_pos hk] at h
      rcases List.mem_cons.mp h with h1 | h1
      · exact Or.inr h1
      · exact Or.inl (List.mem_cons_of_mem _ h1)
    · rw [if_neg hk] at h
      rcases List.mem_cons.mp h with h1 | h1
      · exact Or.inl (h1 ▸ List.mem_cons_self _ _)
      · rcases ih h1 with h2 | h2
        · exact Or.inl (List.mem_cons_of_mem _ h2)
        · exact Or.inr h2

/-- A member of the hydration restore loop's result is either an entry of
the starting store or a Success entry carrying some persisted entry's data
and timestamp. -/
theorem mem_restoreQueries (l : List PersistedQuery) (store : List Query)
    (q : Query) (h : q ∈ restoreQueries store l) :
    q ∈ store ∨ ∃ pq ∈ l,
      q.state = ⟨QueryStatus.success, pq.data, pq.dataUpdatedAt⟩ := by
  induction l generalizing store with
  | nil => exact Or.inl h
  | cons pq rest ih =>
    have h' : q ∈ restoreQueries
        (setQueryData store pq.queryKey pq.data pq.dataUpdatedAt) rest := h
    rcases ih _ h' with h1 | ⟨pq', hm, hst⟩
    · rcases mem_setQueryData _ _ _ _ _ h1 with h2 | h2
      · exact Or.inl h2
      · refine Or.inr ⟨pq, List.mem_cons_self _ _, ?_⟩
        rw [h2]
    · exact Or.inr ⟨pq', List.mem_cons_of_mem _ hm, hst⟩

/-- C10: a Success entry with falsy data (null, undefined, 0, the empty
string, or false) is never included in a produced snapshot — every entry
of the built snapshot has truthy data — and consequently every entry a
later hydration of a produced snapshot restores into a fresh store has
truthy data. -/
theorem falsy_data_never_persisted :
    (∀ (store : List Query) (now : Nat) (pq : PersistedQuery),
      pq ∈ (mkSnapshot store now).queries → isFalsy pq.data = false) ∧
    (∀ (store : List Query) (t0 t1 : Nat) (k : List JVal) (q : Query),
      lookupQuery (hydrateQueryCache [] t1 (some (mkSnapshot store t0))).1 k
        = some q →
      isFalsy q.state.data = false) := by
  have hmain : ∀ (store : List Query) (now : Nat) (pq : PersistedQuery),
      pq ∈ (mkSnapshot store now).queries → isFalsy pq.data = false := by
    intro store now pq hmem
    have hmem' : pq ∈ persistableQueries store := hmem
    rw [persistableQueries, List.mem_map] at hmem'
    obtain ⟨q, hq, hpq⟩ := hmem'
    rw [List.mem_filter] at hq
    have := persistFilter_not_falsy q hq.2
    rw [← hpq]
    exact this
  refine ⟨hmain, ?_⟩
  intro store t0 t1 k q hlook
  simp only [hydrateQueryCache] at hlook
  by_cases hv : (mkSnapshot store t0).version ≠ CACHE_SCHEMA_VERSION
  · rw [if_pos hv] at hlook
    simp [lookupQuery] at hlook
  · rw [if_neg hv] at hlook
    by_cases ha : MAX_CACHE_AGE < (t1 : Int) - (mkSnapshot store t0).timestamp
    · rw [if_pos ha] at hlook
      simp [lookupQuery] at hlook
    · rw [if_neg ha] at hlook
      have hq : q ∈ restoreQueries [] (mkSnapshot store t0).queries :=
        List.mem_of_find?_eq_some hlook
      rcases mem_restoreQueries _ _ _ hq with h1 | ⟨pq, hm, hst⟩
      · cases h1
      · rw [hst]
        exact hmain store t0 pq hm

/-- Witness for C10: the built snapshot over a one-entry store with truthy
data contains that entry, whose data is truthy; and the entry restored by
hydration at key `["tasks"]` has truthy data. -/
theorem falsy_data_never_persisted_witness :
    isFalsy (PersistedQuery.mk [JVal.str "tasks"] (JVal.num 7) 5).data = false ∧
    isFalsy (Query.mk [JVal.str "tasks"] ⟨QueryStatus.success, JVal.num 7, 5⟩).state.data = false := by
  constructor
  · exact falsy_data_never_persisted.1
      [⟨[JVal.str "tasks"], ⟨QueryStatus.success, JVal.num 7, 5⟩⟩] 0
      (PersistedQuery.mk [JVal.str "tasks"] (JVal.num 7) 5) (by decide)
  · exact falsy_data_never_persisted.2
      [⟨[JVal.str "tasks"], ⟨QueryStatus.success, JVal.num 7, 5⟩⟩] 0 1000
      [JVal.str "tasks"]
      (Query.mk [JVal.str "tasks"] ⟨QueryStatus.success, JVal.num 7, 5⟩) (by rfl)

/-- A small truthy Success query with a non-excluded key, for concrete
instances. -/
def sampleQuery : Query :=
  ⟨[JVal.str "tasks"], ⟨QueryStatus.success, JVal.num 7, 5⟩⟩

/-- A small snapshot standing for pre-existing durable slot content. -/
def sampleSnap : CacheSnapshot :=
  ⟨2, 0, [⟨[JVal.str "k"], JVal.num 1, 0⟩]⟩

/-- A Success entry with a non-excluded key whose data is the falsy
value `0`. -/
def falsyQuery : Query :=
  ⟨[JVal.str "stats"], ⟨QueryStatus.success, JVal.num 0, 5⟩⟩

/-- C9 counterexample: with a serialization error (a `TypeError` thrown by
`JSON.stringify`), `persistQueryCache` leaves the durable slot unchanged
(and warns) — it does not clear the slot, contrary to the claim that a
serialization failure clears it. -/
theorem persist_serialization_error_keeps_slot :
    persistQueryCache [sampleQuery] 0 (some sampleSnap)
        (some ⟨false, "TypeError"⟩) none
      = .ok ⟨some sampleSnap, true⟩ ∧
    some sampleSnap ≠ (none : Option CacheSnapshot) := by
  constructor
  · rfl
  · simp

/-- C9 amended: `persistQueryCache` never propagates an error for any
input; a write failure by quota exhaustion clears the durable slot
silently; any other thrown error (a serialization error included) is
swallowed with a warning and leaves the slot unchanged. -/
theorem persist_never_propagates :
    (∀ (store : List Query) (now : Nat) (slot : Option CacheSnapshot)
      (sE wE : Option JsError),
      ∃ r, persistQueryCache store now slot sE wE = .ok r) ∧
    (∀ (store : List Query) (now : Nat) (slot : Option CacheSnapshot),
      persistableQueries store ≠ [] →
      ¬ 2 * 1024 * 1024 < (serializeSnapshot (mkSnapshot store now)).length →
      persistQueryCache store now slot none (some quotaError)
        = .ok ⟨none, false⟩) ∧
    (∀ (store : List Query) (now : Nat) (slot : Option CacheSnapshot)
      (e : JsError), persistableQueries store ≠ [] →
      e.isQuotaExceeded = false →
      persistQueryCache store now slot (some e) none = .ok ⟨slot, true⟩) := by
  refine ⟨?_, ?_, ?_⟩
  · intro store now slot sE wE
    unfold persistQueryCache
    cases h : persistBody store now slot sE wE with
    | ok r => exact ⟨r, rfl⟩
    | error e => exact ⟨handleStorageError slot e, rfl⟩
  · intro store now slot hne hsize
    unfold persistQueryCache persistBody
    simp [hne, hsize, handleStorageError, quotaError, JsError.isQuotaExceeded]
  · intro store now slot e hne hq
    unfold persistQueryCache persistBody
    simp [hne, handleStorageError, hq]

/-- Witness for the amended C9: a vacuous persist returns; a quota failure
clears a concrete non-empty slot; a non-quota error keeps it. -/
theorem persist_never_propagates_witness :
    (∃ r, persistQueryCache [] 0 none none none = .ok r) ∧
    persistQueryCache [sampleQuery] 0 (some sampleSnap) none (some quotaError)
      = .ok ⟨none, false⟩ ∧
    persistQueryCache [sampleQuery] 0 (some sampleSnap)
        (some ⟨false, "SecurityError"⟩) none
      = .ok ⟨some sampleSnap, true⟩ := by
  refine ⟨persist_never_propagates.1 [] 0 none none none, ?_, ?_⟩
  · exact persist_never_propagates.2.1 [sampleQuery] 0 (some sampleSnap)
      (by decide) (by decide)
  · exact persist_never_propagates.2.2 [sampleQuery] 0 (some sampleSnap)
      ⟨false, "SecurityError"⟩ (by decide) (by decide)

/-- C8: when the serialized snapshot exceeds the 2 MiB cap (and there is
something to persist, so serialization is reached), `persistQueryCache`
performs no write at all: the durable slot keeps its previous content
whatever it was, and the size warning is surfaced. -/
theorem persist_size_cap_no_write (store : List Query) (now : Nat)
    (slot : Option CacheSnapshot) (wE : Option JsError)
    (hne : persistableQueries store ≠ [])
    (hsize : 2 * 1024 * 1024 < (serializeSnapshot (mkSnapshot store now)).length) :
    persistQueryCache store now slot none wE = .ok ⟨slot, true⟩ := by
  unfold persistQueryCache persistBody
  simp [hne, hsize]

/-- 2100000 copies of `'a'`; each escapes to itself under JSON escaping. -/
def bigChars : List Char := List.replicate 2100000 'a'

/-- A 2.1-million-character string, pushing a snapshot past the 2 MiB cap. -/
def bigStr : String := ⟨bigChars⟩

/-- A Success query whose data is `bigStr`. -/
def bigQuery : Query :=
  ⟨[JVal.str "k"], ⟨QueryStatus.success, JVal.str bigStr, 0⟩⟩

/-- The letter `a` escapes to itself. -/
theorem escChar_a : escChar 'a' = ['a'] := by decide

/-- Escaping a run of `n` letters `a` keeps its length. -/
theorem escList_replicate_a (n : Nat) :
    (escList (List.replicate n 'a')).length = n := by
  induction n with
  | zero => rfl
  | succ n ih => simp [List.replicate_succ, escList, escChar_a, ih]

/-- Length of a serialized one-entry snapshot, by components. -/
theorem serializeSnapshot_single_length (v t : Int) (pq : PersistedQuery) :
    (serializeSnapshot ⟨v, t, [pq]⟩).length
      = (strLit "version").length + (intChars v).length
        + (strLit "timestamp").length + (intChars t).length
        + (strLit "queries").length + (serializeEntry pq).length + 9 := by
  simp [serializeSnapshot, sepCommaList]
  omega

/-- Length of a serialized snapshot entry, by components. -/
theorem serializeEntry_length (pq : PersistedQuery) :
    (serializeEntry pq).length
      = (strLit "queryKey").length + (serializeKey pq.queryKey).length
        + (strLit "data").length + (serializeJVal pq.data).length
        + (strLit "dataUpdatedAt").length + (natChars pq.dataUpdatedAt).length
        + 7 := by
  simp [serializeEntry]
  omega

/-- Length of a serialized JSON string value. -/
theorem serializeJVal_str_length (s : String) :
    (serializeJVal (JVal.str s)).length = (escList s.data).length + 2 := by
  simp [serializeJVal]

/-- The snapshot built over `[bigQuery]` serializes to more than 2 MiB. -/
theorem bigSnapshot_oversized :
    2 * 1024 * 1024 < (serializeSnapshot (mkSnapshot [bigQuery] 0)).length := by
  have h1 : mkSnapshot [bigQuery] 0
      = ⟨2, 0, [⟨[JVal.str "k"], JVal.str bigStr, 0⟩]⟩ := rfl
  have hesc : (escList bigStr.data).length = 2100000 := by
    rw [show bigStr.data = List.replicate 2100000 'a' from rfl,
      escList_replicate_a]
  rw [h1, serializeSnapshot_single_length, serializeEntry_length,
    show (⟨[JVal.str "k"], JVal.str bigStr, 0⟩ : PersistedQuery).data
      = JVal.str bigStr from rfl,
    serializeJVal_str_length, hesc]
  omega

/-- Witness for C8: over `[bigQuery]` there is something to persist, the
serialization exceeds 2 MiB, and the persist call leaves a concrete
pre-existing slot exactly as it was, warning instead of writing. -/
theorem persist_size_cap_no_write_witness :
    persistableQueries [bigQuery] ≠ [] ∧
    2 * 1024 * 1024 < (serializeSnapshot (mkSnapshot [bigQuery] 0)).length ∧
    persistQueryCache [bigQuery] 0 (some sampleSnap) none none
      = .ok ⟨some sampleSnap, true⟩ := by
  have hne : persistableQueries [bigQuery] ≠ [] := by
    rw [show persistableQueries [bigQuery]
      = [⟨[JVal.str "k"], JVal.str bigStr, 0⟩] from rfl]
    exact List.cons_ne_nil _ _
  exact ⟨hne, bigSnapshot_oversized,
    persist_size_cap_no_write [bigQuery] 0 (some sampleSnap) none hne
      bigSnapshot_oversized⟩

/-- After `setQueryData` for a key, looking that key up yields the fresh
Success entry. -/
theorem lookup_setQueryData_self (store : List Query) (key : List JVal)
    (data : JVal) (updatedAt : Nat) :
    lookupQuery (setQueryData store key data updatedAt) key
      = some ⟨key, ⟨QueryStatus.success, data, updatedAt⟩⟩ := by
  induction store with
  | nil => simp [setQueryData, lookupQuery, List.find?]
  | cons q rest ih =>
    by_cases h : q.queryKey = key
    · simp [setQueryData, h, lookupQuery, List.find?]
    · simp only [setQueryData, if_neg h]
      rw [lookupQuery, List.find?_cons_of_neg, ← lookupQuery]
      · exact ih
      · simp [h]

/-- `setQueryData` for one key does not change the lookup of another. -/
theorem lookup_setQueryData_other (store : List Query) (key₁ key : List JVal)
    (data : JVal) (updatedAt : Nat) (h : key₁ ≠ key) :
    lookupQuery (setQueryData store key₁ data updatedAt) key
      = lookupQuery store key := by
  induction store with
  | nil => simp [setQueryData, lookupQuery, List.find?, h]
  | cons q rest ih =>
    by_cases hk : q.queryKey = key₁
    · rw [setQueryData, if_pos hk]
      rw [lookupQuery, lookupQuery, List.find?_cons_of_neg, List.find?_cons_of_neg]
      all_goals simp [hk, h]
    · rw [setQueryData, if_neg hk]
      by_cases hq : q.queryKey = key
      · rw [lookupQuery, lookupQuery, List.find?_cons_of_pos, List.find?_cons_of_pos]
        all_goals simp [hq]
      · rw [lookupQuery, lookupQuery, List.find?_cons_of_neg, List.find?_cons_of_neg,
          ← lookupQuery, ← lookupQuery]
        · exact ih
        all_goals simp [hq]

/-- The restore loop does not change the lookup of a key absent from the
restored list. -/
theorem lookup_restoreQueries_not_mem (l : List PersistedQuery)
    (store : List Query) (key : List JVal)
    (h : ∀ pq ∈ l, pq.queryKey ≠ key) :
    lookupQuery (restoreQueries store l) key = lookupQuery store key := by
  induction l generalizing store with
  | nil => rfl
  | cons pq rest ih =>
    have h1 : lookupQuery (restoreQueries
        (setQueryData store pq.queryKey pq.data pq.dataUpdatedAt) rest) key
        = lookupQuery (setQueryData store pq.queryKey pq.data pq.dataUpdatedAt) key :=
      ih _ (fun pq' hm => h pq' (List.mem_cons_of_mem _ hm))
    have h2 := lookup_setQueryData_other store pq.queryKey key pq.data
      pq.dataUpdatedAt (h pq (List.mem_cons_self _ _))
    exact h1.trans h2

/-- Under the one-entry-per-key invariant, the restore loop makes every
restored entry retrievable with exactly its persisted data and timestamp. -/
theorem lookup_restoreQueries_mem (l : List PersistedQuery)
    (store : List Query) (pq : PersistedQuery)
    (hnd : (l.map (fun x => x.queryKey)).Nodup) (hm : pq ∈ l) :
    lookupQuery (restoreQueries store l) pq.queryKey
      = some ⟨pq.queryKey, ⟨QueryStatus.success, pq.data, pq.dataUpdatedAt⟩⟩ := by
  induction l generalizing store with
  | nil => cases hm
  | cons hd tl ih =>
    rw [List.map_cons, List.nodup_cons] at hnd
    rcases List.mem_cons.mp hm with rfl | hm'
    · have hnot : ∀ pq' ∈ tl, pq'.queryKey ≠ pq.queryKey := by
        intro pq' hmem heq
        exact hnd.1 (heq ▸ List.mem_map_of_mem (fun x => x.queryKey) hmem)
      have h1 : lookupQuery (restoreQueries store (pq :: tl)) pq.queryKey
          = lookupQuery (setQueryData store pq.queryKey pq.data pq.dataUpdatedAt)
              pq.queryKey :=
        lookup_restoreQueries_not_mem tl _ pq.queryKey hnot
      rw [h1, lookup_setQueryData_self]
    · exact ih _ hnd.2 hm'

/-- A successful, error-free persist call with something to write and a
serialization within the cap overwrites the slot with the built snapshot. -/
theorem persist_writes (store : List Query) (now : Nat)
    (slot : Option CacheSnapshot)
    (hne : persistableQueries store ≠ [])
    (hsize : ¬ 2 * 1024 * 1024 < (serializeSnapshot (mkSnapshot store now)).length) :
    persistQueryCache store now slot none none
      = .ok ⟨some (mkSnapshot store now), false⟩ := by
  unfold persistQueryCache persistBody
  simp [hne, hsize]

/-- C1 counterexample: the round-trip drops a non-excluded Success entry
whose data is the falsy value `0`.  Over a two-entry store, persisting at
time 0 writes the built snapshot (version current, timestamp within the
24-hour bound at hydration time 1000), yet hydrating it into a fresh
store does not restore the key `["stats"]` at all: the claim's "every
non-excluded Success entry" fails at this input. -/
theorem roundtrip_drops_falsy_success_entry :
    falsyQuery.state.status = QueryStatus.success ∧
    falsyQuery.queryKey.head? = some (JVal.str "stats") ∧
    "stats" ∉ EXCLUDED_QUERY_KEYS ∧
    (mkSnapshot [sampleQuery, falsyQuery] 0).version = CACHE_SCHEMA_VERSION ∧
    (1000 : Int) - (mkSnapshot [sampleQuery, falsyQuery] 0).timestamp
      ≤ MAX_CACHE_AGE ∧
    persistQueryCache [sampleQuery, falsyQuery] 0 none none none
      = .ok ⟨some (mkSnapshot [sampleQuery, falsyQuery] 0), false⟩ ∧
    lookupQuery (hydrateQueryCache [] 1000
        (some (mkSnapshot [sampleQuery, falsyQuery] 0))).1 [JVal.str "stats"]
      = none :=
  ⟨rfl, rfl, by decide, rfl, by decide, rfl, rfl⟩

/-- A Success entry with truthy data and a non-excluded leading key
segment passes the persistence filter. -/
theorem persistFilter_of_conditions (q : Query)
    (hs : q.state.status = QueryStatus.success)
    (hd : isFalsy q.state.data = false)
    (he : ∀ s ∈ EXCLUDED_QUERY_KEYS, q.queryKey.head? ≠ some (JVal.str s)) :
    persistFilter q = true := by
  unfold persistFilter
  rw [if_neg (by simp [hs, hd])]
  cases hh : q.queryKey.head? with
  | none => rfl
  | some v =>
    cases v with
    | str s =>
      have hnot : s ∉ EXCLUDED_QUERY_KEYS := fun hmem => absurd hh (he s hmem)
      simp [hnot]
    | undef => rfl
    | nullv => rfl
    | bool b => rfl
    | num n => rfl
    | arr a => rfl
    | obj o => rfl

/-- C1 amended: round-trip for entries with truthy data.  Under the
one-entry-per-key invariant, if the store holds a Success entry `q` with
truthy data and a non-excluded leading key segment, persisting at `t0`
(with nothing failing and the snapshot within the size cap) writes the
built snapshot, and hydrating it into a fresh store at any `t1` at most
24 hours later restores `q`'s key as a Success entry with `q`'s original
data and original `dataUpdatedAt` — not the hydration time.  (A falsy-data
Success entry is dropped by the persistence filter and not restored, per
the counterexample.) -/
theorem persist_hydrate_roundtrip (store : List Query) (t0 t1 : Nat)
    (slot0 : Option CacheSnapshot)
    (hnd : (store.map (fun q => q.queryKey)).Nodup)
    (q : Query) (hq : q ∈ store)
    (hstatus : q.state.status = QueryStatus.success)
    (hdata : isFalsy q.state.data = false)
    (hexcl : ∀ s ∈ EXCLUDED_QUERY_KEYS, q.queryKey.head? ≠ some (JVal.str s))
    (hsize : ¬ 2 * 1024 * 1024 < (serializeSnapshot (mkSnapshot store t0)).length)
    (hage : (t1 : Int) - (t0 : Int) ≤ MAX_CACHE_AGE) :
    persistQueryCache store t0 slot0 none none
      = .ok ⟨some (mkSnapshot store t0), false⟩ ∧
    lookupQuery (hydrateQueryCache [] t1 (some (mkSnapshot store t0))).1 q.queryKey
      = some ⟨q.queryKey, ⟨QueryStatus.success, q.state.data, q.state.dataUpdatedAt⟩⟩ := by
  have hf : persistFilter q = true :=
    persistFilter_of_conditions q hstatus hdata hexcl
  have hmem : toPersisted q ∈ persistableQueries store :=
    List.mem_map_of_mem _ (List.mem_filter.mpr ⟨hq, hf⟩)
  have hne : persistableQueries store ≠ [] := by
    intro h0
    rw [h0] at hmem
    cases hmem
  refine ⟨persist_writes store t0 slot0 hne hsize, ?_⟩
  have hver : ¬ (mkSnapshot store t0).version ≠ CACHE_SCHEMA_VERSION := by
    simp [mkSnapshot]
  have hts : ¬ MAX_CACHE_AGE < (t1 : Int) - (mkSnapshot store t0).timestamp := by
    simp only [mkSnapshot]
    exact not_lt.mpr hage
  simp only [hydrateQueryCache, if_neg hver, if_neg hts]
  have hnd' : ((persistableQueries store).map (fun pq => pq.queryKey)).Nodup := by
    have heq : (persistableQueries store).map (fun pq => pq.queryKey)
        = (store.filter persistFilter).map (fun q => q.queryKey) := by
      rw [persistableQueries, List.map_map]
      rfl
    rw [heq]
    exact hnd.sublist ((List.filter_sublist store).map _)
  have := lookup_restoreQueries_mem (persistableQueries store) [] (toPersisted q)
    hnd' hmem
  exact this

/-- Witness for the amended C1: persisting a concrete one-entry store at
time 0 and hydrating a fresh store 1000 ms later restores the entry with
its original `dataUpdatedAt` of 5, not 1000. -/
theorem persist_hydrate_roundtrip_witness :
    persistQueryCache [sampleQuery] 0 none none none
      = .ok ⟨some (mkSnapshot [sampleQuery] 0), false⟩ ∧
    lookupQuery (hydrateQueryCache [] 1000 (some (mkSnapshot [sampleQuery] 0))).1
        [JVal.str "tasks"]
      = some ⟨[JVal.str "tasks"], ⟨QueryStatus.success, JVal.num 7, 5⟩⟩ :=
  persist_hydrate_roundtrip [sampleQuery] 0 1000 none (by decide) sampleQuery
    (by decide) (by decide) (by decide) (by decide) (by decide) (by decide)

end ZenChat
